import Mathlib

/-!
# Fault reporting of `vowpalwabbit/vw_exception.h`

A shallow embedding of the exception hierarchy and of the raise constructs
`THROW`, `THROW_EX`, `THROWERRNO` and `VW_ASSERT` of the header, followed by the
properties proved about them.

Conventions of the embedding:

* `const char*` and `std::string` values are `String`, `int` is `Int`
  (no arithmetic is done on line numbers, so no wrap-around can occur);
* a construct that is used at a source position takes that position as the
  parameter `site`; `__FILE__` and `__LINE__` inside its body are `site.file`
  and `site.line`, which is how the preprocessor expands them, also in a nested
  expansion;
* the argument list `args` of a construct is the chain `a1 << a2 << ... << an`,
  given by the text `operator<<` writes for each operand;
* the member functions of `vw_exception` that the header only declares are
  modelled from the specification and marked as such.
-/

namespace VW

/-! ## Data model -/

/-- The four exception classes the header declares. -/
inductive ExClass where
  | vw_exception
  | vw_argument_disagreement_exception
  | vw_argument_invalid_value_exception
  | vw_unrecognised_option_exception
  deriving DecidableEq, Repr

/-- The data members of `class vw_exception`, in declaration order. -/
structure vw_exception where
  file : String
  message : String
  lineNumber : Int
  deriving DecidableEq, Repr

/-- Modelled from the spec: the body of the constructor
`vw_exception(const char* file, int lineNumber, std::string message)` is not in the
header; the spec says construction always succeeds and that the accessors return
exactly the values supplied at construction. -/
def vw_exception.ctor (file : String) (lineNumber : Int) (message : String) : vw_exception :=
  { file := file, message := message, lineNumber := lineNumber }

/-- Modelled from the spec: the body of `what()` is not in the header; the spec
says the description accessor returns the message supplied at construction. -/
def vw_exception.what (this : vw_exception) : String := this.message

/-- Modelled from the spec: the body of `Filename()` is not in the header; the spec
says it returns the file supplied at construction. -/
def vw_exception.Filename (this : vw_exception) : String := this.file

/-- Modelled from the spec: the body of `LineNumber()` is not in the header; the
spec says it returns the line supplied at construction. -/
def vw_exception.LineNumber (this : vw_exception) : Int := this.lineNumber

/-- Modelled from the spec: the body of the copy constructor
`vw_exception(const vw_exception& ex)` is not in the header; the spec says a copy is
an independent value with the fields of its source. -/
def vw_exception.copy_ctor (ex : vw_exception) : vw_exception :=
  { file := ex.file, message := ex.message, lineNumber := ex.lineNumber }

/-- A complete exception object: its dynamic class and its `vw_exception` base
subobject.  The three derived classes declare no data member of their own. -/
structure Fault where
  cls : ExClass
  base : vw_exception
  deriving DecidableEq, Repr

/-- A base-class object: `vw_exception(file, lineNumber, message)`. -/
def Fault.vw_exception (file : String) (lineNumber : Int) (message : String) : Fault :=
  { cls := .vw_exception, base := vw_exception.ctor file lineNumber message }

/-- The constructor of `vw_argument_disagreement_exception`, whose initialiser is
`vw_exception(file, lineNumber, message)`. -/
def Fault.vw_argument_disagreement_exception (file : String) (lineNumber : Int)
    (message : String) : Fault :=
  { cls := .vw_argument_disagreement_exception,
    base := vw_exception.ctor file lineNumber message }

/-- The constructor of `vw_argument_invalid_value_exception`, whose initialiser is
`vw_exception(file, lineNumber, message)`. -/
def Fault.vw_argument_invalid_value_exception (file : String) (lineNumber : Int)
    (message : String) : Fault :=
  { cls := .vw_argument_invalid_value_exception,
    base := vw_exception.ctor file lineNumber message }

/-- The constructor of `vw_unrecognised_option_exception`, whose initialiser is
`vw_exception(file, lineNumber, message)`. -/
def Fault.vw_unrecognised_option_exception (file : String) (lineNumber : Int)
    (message : String) : Fault :=
  { cls := .vw_unrecognised_option_exception,
    base := vw_exception.ctor file lineNumber message }

/-- The expression `ex(file, lineNumber, message)` for a class name `ex`. -/
def construct (ex : ExClass) (file : String) (lineNumber : Int) (message : String) : Fault :=
  match ex with
  | .vw_exception => Fault.vw_exception file lineNumber message
  | .vw_argument_disagreement_exception =>
      Fault.vw_argument_disagreement_exception file lineNumber message
  | .vw_argument_invalid_value_exception =>
      Fault.vw_argument_invalid_value_exception file lineNumber message
  | .vw_unrecognised_option_exception =>
      Fault.vw_unrecognised_option_exception file lineNumber message

/-- The member `what()` on a complete object: virtual, overridden by no derived class. -/
def Fault.what (e : Fault) : String := e.base.what

/-- The member `Filename()` on a complete object, inherited from the base. -/
def Fault.Filename (e : Fault) : String := e.base.Filename

/-- The member `LineNumber()` on a complete object, inherited from the base. -/
def Fault.LineNumber (e : Fault) : Int := e.base.LineNumber

/-! ## Class hierarchy and handler matching -/

/-- The direct base class among the four, read off the class heads: each of the
three derived classes is declared `: public vw_exception`; `vw_exception` derives
from `std::exception`, which is not one of the four. -/
def directBase : ExClass → Option ExClass
  | .vw_exception => none
  | .vw_argument_disagreement_exception => some .vw_exception
  | .vw_argument_invalid_value_exception => some .vw_exception
  | .vw_unrecognised_option_exception => some .vw_exception

/-- The base classes above a class, nearest first, following at most `n` links. -/
def baseChain : Nat → ExClass → List ExClass
  | 0, _ => []
  | n + 1, c =>
    match directBase c with
    | none => []
    | some b => b :: baseChain n b

/-- Class `d` is class `b` or has `b` as a public base. -/
def isA (d b : ExClass) : Bool := d == b || (baseChain 4 d).contains b

/-- A handler `catch (handler&)` matches the thrown object `e`: the handler class
is the dynamic class of `e` or a public base of it. -/
def catches (handler : ExClass) (e : Fault) : Bool := isA e.cls handler

/-! ## The raise constructs -/

/-- A source position at which a construct is used: the values `__FILE__` and
`__LINE__` expand to there. -/
structure CallSite where
  file : String
  line : Int
  deriving DecidableEq, Repr

/-- The part of `std::stringstream` the constructs use: `buf` is what `str()`
returns; `operands` records the operands inserted so far and is read by no
member, it only tells whether anything was formatted. -/
structure stringstream where
  buf : String
  operands : List String
  deriving DecidableEq, Repr

/-- The declaration `std::stringstream __msg;`. -/
def stringstream.init : stringstream := { buf := "", operands := [] }

/-- One insertion `__msg << x`, where `x` is the text written for the operand. -/
def stringstream.insert (s : stringstream) (x : String) : stringstream :=
  { buf := s.buf ++ x, operands := s.operands ++ [x] }

/-- The argument list of a construct, `a1 << a2 << ... << an`, as the texts
written for its operands. -/
abbrev Args := List String

/-- The statement `__msg << args;`: the chain associates to the left. -/
def stringstream.shl (s : stringstream) (args : Args) : stringstream :=
  args.foldl stringstream.insert s

/-- The member `str()`. -/
def stringstream.str (s : stringstream) : String := s.buf

/-- How a statement ends. -/
inductive Completion where
  | normal
  | thrown (e : Fault)
  deriving DecidableEq, Repr

/-- What executing a construct does: the operands it formatted, in order, and how
it ends. -/
structure Exec where
  formatted : List String
  completion : Completion
  deriving DecidableEq, Repr

/-- Which branch of `#ifdef _WIN32` is compiled. -/
inductive Platform where
  | win32
  | other
  deriving DecidableEq, Repr

/-- What the call `strerror_s(__errmsg, sizeof __errmsg, errno)` or
`strerror_r(errno, __errmsg, sizeof __errmsg)` leaves behind: `rc` is the value it
returns, which the construct compares with 0 (an integer status, or a pointer
under the GNU declaration of `strerror_r`), and `errmsg` the content of the
buffer `__errmsg` read as a C string. -/
structure StrerrorCall where
  rc : Int
  errmsg : String
  deriving DecidableEq, Repr

/-- A successful call `strerror_r(errno, __errmsg, sizeof __errmsg)` under the GNU
declaration `char* strerror_r(int, char*, size_t)`, the one in force when
`_GNU_SOURCE` is defined, as g++ predefines it on glibc: `text` is the error text
the lookup found, `pointer` the value returned, which points to that text and is
never null, and `buffer` the content of `__errmsg` afterwards, which the call
need not have written. -/
structure GnuLookup where
  text : String
  pointer : Int
  buffer : String
  deriving DecidableEq, Repr

/-- What line 147 sees of a call under the GNU declaration: the value compared
with 0 is the pointer returned. -/
def GnuLookup.call (g : GnuLookup) : StrerrorCall :=
  { rc := g.pointer, errmsg := g.buffer }

/-- The construct `THROWERRNO(args)`, on either branch of `#ifdef _WIN32`. -/
def THROWERRNO (p : Platform) (site : CallSite) (args : Args) (os : StrerrorCall) : Exec :=
  match p with
  | .win32 =>
    let __msg := stringstream.init
    let __msg := __msg.shl args
    let __msg :=
      if os.rc != 0 then __msg.insert ", errno = unknown"
      else (__msg.insert ", errno = ").insert os.errmsg
    { formatted := __msg.operands,
      completion := .thrown (Fault.vw_exception site.file site.line __msg.str) }
  | .other =>
    let __msg := stringstream.init
    let __msg := __msg.shl args
    let __msg :=
      if os.rc != 0 then __msg.insert "errno = unknown"
      else (__msg.insert "errno = ").insert os.errmsg
    { formatted := __msg.operands,
      completion := .thrown (Fault.vw_exception site.file site.line __msg.str) }

/-- The construct `THROW(args)`. -/
def THROW (site : CallSite) (args : Args) : Exec :=
  let __msg := stringstream.init
  let __msg := __msg.shl args
  { formatted := __msg.operands,
    completion := .thrown (Fault.vw_exception site.file site.line __msg.str) }

/-- The construct `THROW_EX(ex, args)`. -/
def THROW_EX (site : CallSite) (ex : ExClass) (args : Args) : Exec :=
  let __msg := stringstream.init
  let __msg := __msg.shl args
  { formatted := __msg.operands,
    completion := .thrown (construct ex site.file site.line __msg.str) }

/-- The source position a fault reports. -/
def Fault.location (e : Fault) : CallSite := { file := e.Filename, line := e.LineNumber }

/-- Spec wording: the stream-style concatenation of the arguments, in the order
given, with nothing before, between or after them. -/
def concatenation : List String → String
  | [] => ""
  | a :: rest => a ++ concatenation rest

/-! ## Objects in memory: copying, assigning, destroying -/

/-- The address of an exception object. -/
abbrev Addr := Nat

/-- The exception objects that are alive, by address. -/
abbrev Memory := Addr → Option Fault

/-- No object is alive. -/
def Memory.empty : Memory := fun _ => none

/-- The file, line and message read from the object at `x` through `Filename()`,
`LineNumber()` and `what()`; `none` when no object is alive there. -/
def fieldsAt (m : Memory) (x : Addr) : Option (String × Int × String) :=
  (m x).map fun e => (e.Filename, e.LineNumber, e.what)

/-- Construct an object of class `ex` from `(file, lineNumber, message)` in the
free storage at `this`. -/
def construct_at (m : Memory) (this : Addr) (ex : ExClass) (file : String)
    (lineNumber : Int) (message : String) : Option Memory :=
  match m this with
  | none => some (Function.update m this (some (construct ex file lineNumber message)))
  | some _ => none

/-- The copy constructor of class `cls`, building at the free address `this` from
the object at `ex`.  For a derived class it is `: vw_exception(ex) {}`; the argument
type `const cls&` admits an object of class `cls` or of a class derived from it. -/
def copy_construct (m : Memory) (cls : ExClass) (this ex : Addr) : Option Memory :=
  match m this, m ex with
  | none, some src =>
    if isA src.cls cls then
      some (Function.update m this (some { cls := cls, base := vw_exception.copy_ctor src.base }))
    else none
  | _, _ => none

/-- Modelled from the spec: the body of `vw_exception::operator=` is not in the
header; the spec says assigning yields an independent value, which has the file,
line and message of its source. -/
def vw_exception.operator_assign (m : Memory) (this other : Addr) : Option Memory :=
  match m this, m other with
  | some t, some o =>
    some (Function.update m this (some { t with
      base := { file := o.base.file, message := o.base.message,
                lineNumber := o.base.lineNumber } }))
  | _, _ => none

/-- The member `vw_argument_disagreement_exception::operator=`. -/
def vw_argument_disagreement_exception.operator_assign (m : Memory) (this other : Addr) :
    Option Memory :=
  if other = this then some m
  else vw_exception.operator_assign m this other

/-- The member `vw_argument_invalid_value_exception::operator=`. -/
def vw_argument_invalid_value_exception.operator_assign (m : Memory) (this other : Addr) :
    Option Memory :=
  if other = this then some m
  else vw_exception.operator_assign m this other

/-- The member `vw_unrecognised_option_exception::operator=`. -/
def vw_unrecognised_option_exception.operator_assign (m : Memory) (this other : Addr) :
    Option Memory :=
  if other = this then some m
  else vw_exception.operator_assign m this other

/-- The statement `a = s` where `a` has static class `cls`: both objects are alive
and of class `cls` or derived from it, and the `operator=` of `cls` runs. -/
def assign (m : Memory) (cls : ExClass) (a s : Addr) : Option Memory :=
  match m a, m s with
  | some t, some o =>
    if isA t.cls cls && isA o.cls cls then
      match cls with
      | .vw_exception => vw_exception.operator_assign m a s
      | .vw_argument_disagreement_exception =>
          vw_argument_disagreement_exception.operator_assign m a s
      | .vw_argument_invalid_value_exception =>
          vw_argument_invalid_value_exception.operator_assign m a s
      | .vw_unrecognised_option_exception =>
          vw_unrecognised_option_exception.operator_assign m a s
    else none
  | _, _ => none

/-- The end of the life of the object at `x`. -/
def destroy (m : Memory) (x : Addr) : Option Memory :=
  match m x with
  | some _ => some (Function.update m x none)
  | none => none

/-- The operations of the public interface on objects in memory. -/
inductive Op where
  | what (x : Addr)
  | Filename (x : Addr)
  | LineNumber (x : Addr)
  | copy (cls : ExClass) (this ex : Addr)
  | assign (cls : ExClass) (a s : Addr)
  | destroy (x : Addr)
  deriving DecidableEq, Repr

/-- One operation.  The three accessors are `const` members: they need a live
object and leave the memory as it is. -/
def step (m : Memory) : Op → Option Memory
  | .what x => (m x).map fun _ => m
  | .Filename x => (m x).map fun _ => m
  | .LineNumber x => (m x).map fun _ => m
  | .copy cls this ex => copy_construct m cls this ex
  | .assign cls a s => assign m cls a s
  | .destroy x => destroy m x

/-- A sequence of operations, in order. -/
def run (m : Memory) : List Op → Option Memory
  | [] => some m
  | op :: rest => (step m op).bind fun m1 => run m1 rest

/-- The operation writes to the object at `x`: `x` is the target of an assignment
from another object, or the life of `x` ends. -/
def Op.writes (x : Addr) : Op → Bool
  | .assign _ a s => a == x && s != x
  | .destroy y => y == x
  | _ => false

/-- The object at `x` takes part in the operation. -/
def Op.involves (x : Addr) : Op → Bool
  | .what y => y == x
  | .Filename y => y == x
  | .LineNumber y => y == x
  | .copy _ _ ex => ex == x
  | .assign _ a s => a == x || s == x
  | .destroy _ => false

/-- A memory holding one object: the disagreement fault of the scenario of the
specification, at address 0. -/
def scenarioMemory : Memory :=
  Function.update Memory.empty 0
    (some (construct .vw_argument_disagreement_exception "config.cc" 42
      "conflicting options A and B"))

/-- A sequence in which the object at 0 is read by the three accessors, copied to
address 1, assigned to that copy, and assigned to itself. -/
def readingOps : List Op :=
  [.what 0, .Filename 0, .LineNumber 0, .copy .vw_exception 1 0,
   .assign .vw_exception 1 0, .assign .vw_argument_disagreement_exception 0 0]

/-- The source position reported by the fault an execution raises, if it raises. -/
def Exec.raisedAt (x : Exec) : Option CallSite :=
  match x.completion with
  | .thrown e => some e.location
  | .normal => none

end VW

/-- The construct `VW_ASSERT(condition, args)`: `if (!(condition)) { THROW(args); }`.
The nested `THROW` is expanded at the same source position. -/
def VW_ASSERT (site : VW.CallSite) (condition : Bool) (args : VW.Args) : VW.Exec :=
  if !condition then VW.THROW site args
  else { formatted := [], completion := .normal }

/-! ## Auxiliary facts -/

namespace VW

theorem stringstream.shl_buf (s : stringstream) (args : Args) :
    (s.shl args).buf = s.buf ++ concatenation args := by
  induction args generalizing s with
  | nil => simp [stringstream.shl, concatenation]
  | cons a rest ih =>
    have h : s.shl (a :: rest) = (s.insert a).shl rest := rfl
    rw [h, ih, concatenation, stringstream.insert, String.append_assoc]

theorem stringstream.shl_operands (s : stringstream) (args : Args) :
    (s.shl args).operands = s.operands ++ args := by
  induction args generalizing s with
  | nil => simp [stringstream.shl]
  | cons a rest ih =>
    have h : s.shl (a :: rest) = (s.insert a).shl rest := rfl
    rw [h, ih, stringstream.insert]
    simp

theorem stringstream.init_shl_str (args : Args) :
    (stringstream.init.shl args).str = concatenation args := by
  rw [stringstream.str, stringstream.shl_buf]
  simp [stringstream.init]

theorem stringstream.init_shl_operands (args : Args) :
    (stringstream.init.shl args).operands = args := by
  rw [stringstream.shl_operands]
  simp [stringstream.init]

theorem vw_exception.operator_assign_eq (m : Memory) (this other : Addr) (t o : Fault)
    (ht : m this = some t) (ho : m other = some o) :
    vw_exception.operator_assign m this other
      = some (Function.update m this (some { cls := t.cls, base := o.base })) := by
  simp [vw_exception.operator_assign, ht, ho]

theorem update_self_eq (m : Memory) (a : Addr) (t : Fault) (ht : m a = some t) :
    Function.update m a (some { cls := t.cls, base := t.base }) = m := by
  have h : (some { cls := t.cls, base := t.base } : Option Fault) = m a := by rw [ht]
  rw [h, Function.update_eq_self]

theorem assign_eq (m : Memory) (cls : ExClass) (a s : Addr) (t o : Fault)
    (ht : m a = some t) (ho : m s = some o)
    (hta : isA t.cls cls = true) (hoa : isA o.cls cls = true) :
    assign m cls a s = some (Function.update m a (some { cls := t.cls, base := o.base })) := by
  have hbase := vw_exception.operator_assign_eq m a s t o ht ho
  have hvar : (if s = a then some m else vw_exception.operator_assign m a s)
      = some (Function.update m a (some { cls := t.cls, base := o.base })) := by
    by_cases hsa : s = a
    · subst hsa
      rw [ht] at ho
      cases ho
      rw [if_pos rfl, update_self_eq m s t ht]
    · rw [if_neg hsa, hbase]
  cases cls <;>
    simp only [assign, ht, ho, hta, hoa, Bool.and_self, if_true,
      vw_argument_disagreement_exception.operator_assign,
      vw_argument_invalid_value_exception.operator_assign,
      vw_unrecognised_option_exception.operator_assign] <;>
    first
      | exact hbase
      | exact hvar

theorem assign_inv (m m1 : Memory) (cls : ExClass) (a s : Addr)
    (h : assign m cls a s = some m1) :
    ∃ t o : Fault, m a = some t ∧ m s = some o ∧ isA t.cls cls = true ∧ isA o.cls cls = true
      ∧ m1 = Function.update m a (some { cls := t.cls, base := o.base }) := by
  cases hta : m a with
  | none => simp [assign, hta] at h
  | some t =>
    cases hso : m s with
    | none => simp [assign, hta, hso] at h
    | some o =>
      by_cases hty : (isA t.cls cls && isA o.cls cls) = true
      · have h1 : isA t.cls cls = true := (Bool.and_eq_true_iff.mp hty).1
        have h2 : isA o.cls cls = true := (Bool.and_eq_true_iff.mp hty).2
        rw [assign_eq m cls a s t o hta hso h1 h2] at h
        exact ⟨t, o, rfl, rfl, h1, h2, (Option.some.inj h).symm⟩
      · simp only [assign, hta, hso] at h
        rw [if_neg hty] at h
        cases h

theorem copy_construct_inv (m m1 : Memory) (cls : ExClass) (this ex : Addr)
    (h : copy_construct m cls this ex = some m1) :
    m this = none ∧ ∃ src : Fault, m ex = some src ∧ isA src.cls cls = true
      ∧ m1 = Function.update m this (some { cls := cls, base := src.base }) := by
  cases hthis : m this with
  | some _ => simp [copy_construct, hthis] at h
  | none =>
    cases hex : m ex with
    | none => simp [copy_construct, hthis, hex] at h
    | some src =>
      by_cases hty : isA src.cls cls = true
      · simp only [copy_construct, hthis, hex, hty, if_true] at h
        exact ⟨rfl, src, rfl, hty, (Option.some.inj h).symm⟩
      · simp only [copy_construct, hthis, hex] at h
        rw [if_neg hty] at h
        cases h

theorem step_frame (m m1 : Memory) (op : Op) (x : Addr) (f : Fault)
    (hstep : step m op = some m1) (hw : op.writes x = false) (hx : m x = some f) :
    m1 x = some f := by
  cases op with
  | what y =>
    cases hy : m y with
    | none => simp [step, hy] at hstep
    | some _ => simp [step, hy] at hstep; rw [← hstep]; exact hx
  | Filename y =>
    cases hy : m y with
    | none => simp [step, hy] at hstep
    | some _ => simp [step, hy] at hstep; rw [← hstep]; exact hx
  | LineNumber y =>
    cases hy : m y with
    | none => simp [step, hy] at hstep
    | some _ => simp [step, hy] at hstep; rw [← hstep]; exact hx
  | copy cls this ex =>
    obtain ⟨hfree, src, _, _, hm1⟩ := copy_construct_inv m m1 cls this ex hstep
    have hne : x ≠ this := by
      intro h
      rw [h, hfree] at hx
      cases hx
    rw [hm1, Function.update_noteq hne, hx]
  | assign cls a s =>
    obtain ⟨t, o, hta, hso, _, _, hm1⟩ := assign_inv m m1 cls a s hstep
    by_cases hax : a = x
    · subst hax
      have hsa : s = a := by
        simp [Op.writes] at hw
        exact hw
      subst hsa
      rw [hta] at hso
      cases hso
      rw [hm1, update_self_eq m s t hta, hx]
    · rw [hm1, Function.update_noteq (Ne.symm hax), hx]
  | destroy y =>
    have hne : x ≠ y := by
      intro h
      simp [Op.writes, h] at hw
    cases hy : m y with
    | none => simp [step, destroy, hy] at hstep
    | some _ =>
      simp [step, destroy, hy] at hstep
      rw [← hstep, Function.update_noteq hne, hx]

theorem run_frame (ops : List Op) (m m1 : Memory) (x : Addr) (f : Fault)
    (hrun : run m ops = some m1) (hw : ∀ op ∈ ops, op.writes x = false)
    (hx : m x = some f) : m1 x = some f := by
  induction ops generalizing m with
  | nil =>
    simp [run] at hrun
    rw [← hrun]; exact hx
  | cons op rest ih =>
    cases hs : step m op with
    | none => simp [run, hs] at hrun
    | some m2 =>
      simp [run, hs] at hrun
      exact ih m2 hrun (fun o ho => hw o (List.mem_cons_of_mem op ho))
        (step_frame m m2 op x f hs (hw op (List.mem_cons_self op rest)) hx)

end VW

/-! ## Construction and accessors -/

/-- C1: for every file, line and message and each of the four classes, the object
constructed from the triple reads back exactly that file, line and message through
Filename(), LineNumber() and what(); each derived constructor hands the triple to
the base constructor unchanged and in order, so the base subobject is the one the
base constructor builds; and the disagreement fault built from
("config.cc", 42, "conflicting options A and B") reads back those three values. -/
theorem construct_then_read (ex : VW.ExClass) (file : String) (lineNumber : Int)
    (message : String) :
    (VW.construct ex file lineNumber message).Filename = file
    ∧ (VW.construct ex file lineNumber message).LineNumber = lineNumber
    ∧ (VW.construct ex file lineNumber message).what = message
    ∧ (VW.construct ex file lineNumber message).cls = ex
    ∧ (VW.construct ex file lineNumber message).base
        = VW.vw_exception.ctor file lineNumber message
    ∧ (VW.Fault.vw_argument_disagreement_exception "config.cc" 42
          "conflicting options A and B").what = "conflicting options A and B"
    ∧ (VW.Fault.vw_argument_disagreement_exception "config.cc" 42
          "conflicting options A and B").Filename = "config.cc"
    ∧ (VW.Fault.vw_argument_disagreement_exception "config.cc" 42
          "conflicting options A and B").LineNumber = 42 := by
  refine ⟨?_, ?_, ?_, ?_, ?_, rfl, rfl, rfl⟩ <;> cases ex <;> rfl

/-! ## THROW -/

/-- C4: for every argument list and source position, THROW(args) raises and does not
complete normally, the object raised has class vw_exception, which is none of
the three derived classes, and its message is the concatenation of the arguments
in the order given with nothing before, between or after them; the operands
formatted are exactly the arguments. -/
theorem THROW_raises_base_with_concatenation (site : VW.CallSite) (args : VW.Args) :
    ∃ e : VW.Fault,
      (VW.THROW site args).completion = .thrown e
      ∧ (VW.THROW site args).completion ≠ .normal
      ∧ e.cls = .vw_exception
      ∧ e.cls ≠ .vw_argument_disagreement_exception
      ∧ e.cls ≠ .vw_argument_invalid_value_exception
      ∧ e.cls ≠ .vw_unrecognised_option_exception
      ∧ e.what = VW.concatenation args
      ∧ (VW.THROW site args).formatted = args := by
  refine ⟨VW.Fault.vw_exception site.file site.line (VW.stringstream.init.shl args).str,
    rfl, ?_, rfl, ?_, ?_, ?_, ?_, ?_⟩
  · simp [VW.THROW]
  · simp [VW.Fault.vw_exception]
  · simp [VW.Fault.vw_exception]
  · simp [VW.Fault.vw_exception]
  · exact VW.stringstream.init_shl_str args
  · exact VW.stringstream.init_shl_operands args

/-! ## THROW_EX -/

/-- C5: for every argument list and source position, THROW_EX(VW::vw_exception, args)
is THROW(args), and for every class v, THROW_EX(v, args) raises an object of class
v that is the object THROW(args) raises with only its class replaced by v: file,
line and message are equal, and the same operands are formatted. -/
theorem THROW_EX_shares_THROW_path (site : VW.CallSite) (args : VW.Args) :
    VW.THROW_EX site .vw_exception args = VW.THROW site args
    ∧ ∀ v : VW.ExClass, ∃ e t : VW.Fault,
        (VW.THROW_EX site v args).completion = .thrown e
        ∧ (VW.THROW site args).completion = .thrown t
        ∧ e.cls = v
        ∧ e.Filename = t.Filename
        ∧ e.LineNumber = t.LineNumber
        ∧ e.what = t.what
        ∧ e = { t with cls := v }
        ∧ (VW.THROW_EX site v args).formatted = (VW.THROW site args).formatted := by
  refine ⟨rfl, fun v => ?_⟩
  refine ⟨VW.construct v site.file site.line (VW.stringstream.init.shl args).str,
    VW.Fault.vw_exception site.file site.line (VW.stringstream.init.shl args).str,
    rfl, rfl, ?_, ?_, ?_, ?_, ?_, rfl⟩ <;> cases v <;> rfl

/-! ## THROWERRNO -/

/-- C2, as the claim states it, fails on the _WIN32 branch: with a failing lookup
(return value 1) and the single argument "open failed", the message is
"open failed, errno = unknown", which is not the formatted arguments immediately
followed by "errno = unknown". -/
theorem THROWERRNO_win32_fallback_separator :
    (VW.StrerrorCall.mk 1 "").rc ≠ 0
    ∧ (VW.THROWERRNO .win32 ⟨"io.cc", 7⟩ ["open failed"] ⟨1, ""⟩).completion
        = .thrown (VW.Fault.vw_exception "io.cc" 7 "open failed, errno = unknown")
    ∧ (VW.Fault.vw_exception "io.cc" 7 "open failed, errno = unknown").what
        ≠ VW.concatenation ["open failed"] ++ "errno = unknown" := by
  decide

/-- C2, amended: for every argument list and source position, when the lookup
fails (non-zero return value) THROWERRNO raises an object of class vw_exception;
on the branch without _WIN32 its message is the formatted arguments immediately
followed by "errno = unknown", and on the _WIN32 branch it is the formatted
arguments followed by ", errno = unknown". -/
theorem THROWERRNO_lookup_failure (p : VW.Platform) (site : VW.CallSite) (args : VW.Args)
    (os : VW.StrerrorCall) (hfail : os.rc ≠ 0) :
    ∃ e : VW.Fault,
      (VW.THROWERRNO p site args os).completion = .thrown e
      ∧ e.cls = .vw_exception
      ∧ e.what = VW.concatenation args ++
          (match p with
           | .other => "errno = unknown"
           | .win32 => ", errno = unknown") := by
  cases p
  · refine ⟨VW.Fault.vw_exception site.file site.line
      ((VW.stringstream.init.shl args).insert ", errno = unknown").str, ?_, rfl, ?_⟩
    · simp [VW.THROWERRNO, hfail]
    · show ((VW.stringstream.init.shl args).buf ++ ", errno = unknown") = _
      rw [VW.stringstream.shl_buf]
      simp [VW.stringstream.init]
  · refine ⟨VW.Fault.vw_exception site.file site.line
      ((VW.stringstream.init.shl args).insert "errno = unknown").str, ?_, rfl, ?_⟩
    · simp [VW.THROWERRNO, hfail]
    · show ((VW.stringstream.init.shl args).buf ++ "errno = unknown") = _
      rw [VW.stringstream.shl_buf]
      simp [VW.stringstream.init]

/-- Witness of the amended C2 on the _WIN32 branch with a failing lookup. -/
theorem THROWERRNO_lookup_failure_witness :
    (VW.StrerrorCall.mk 22 "").rc ≠ 0
    ∧ ∃ e : VW.Fault,
      (VW.THROWERRNO .win32 ⟨"io.cc", 7⟩ ["cannot open ", "data.vw"] ⟨22, ""⟩).completion
        = .thrown e
      ∧ e.cls = .vw_exception
      ∧ e.what = VW.concatenation ["cannot open ", "data.vw"] ++ ", errno = unknown" :=
  ⟨by decide,
   THROWERRNO_lookup_failure .win32 ⟨"io.cc", 7⟩ ["cannot open ", "data.vw"] ⟨22, ""⟩
     (by decide)⟩

/-- C3 fails in the code on the branch without _WIN32 as g++ builds it against
glibc: with errno = ENOENT the lookup succeeds and the GNU strerror_r returns a
non-null pointer to "No such file or directory", the test at line 147 compares
that pointer with 0 and takes the fallback arm, and THROWERRNO("cannot open " <<
"data.vw") at line 7 of "io.cc" raises the message
"cannot open data.vwerrno = unknown", whether or not the call wrote the text to
the buffer; the message does not end with the error text the platform supplied,
which the claim says it does on a successful lookup. -/
theorem THROWERRNO_gnu_success_takes_fallback :
    (VW.GnuLookup.mk "No such file or directory" 140737351876608 "").pointer ≠ 0
    ∧ (VW.THROWERRNO .other ⟨"io.cc", 7⟩ ["cannot open ", "data.vw"]
        (VW.GnuLookup.mk "No such file or directory" 140737351876608 "").call).completion
        = .thrown (VW.Fault.vw_exception "io.cc" 7 "cannot open data.vwerrno = unknown")
    ∧ (VW.THROWERRNO .other ⟨"io.cc", 7⟩ ["cannot open ", "data.vw"]
        (VW.GnuLookup.mk "No such file or directory" 140737351876608
          "No such file or directory").call).completion
        = .thrown (VW.Fault.vw_exception "io.cc" 7 "cannot open data.vwerrno = unknown")
    ∧ ¬ ((VW.GnuLookup.mk "No such file or directory" 140737351876608 "").text.data
          <:+ (VW.Fault.vw_exception "io.cc" 7
                "cannot open data.vwerrno = unknown").what.data) := by
  decide

/-! ## Provenance -/

/-- C6: every raise construct used at a source position reports that position:
the fault raised by THROW, by THROW_EX for any class, by THROWERRNO on either
branch and for any outcome of the lookup, and by VW_ASSERT with a false condition
(through its nested THROW) has Filename() and LineNumber() equal to the file and
line of the use; hence none of them reports any other position, such as one
inside the header that defines the constructs. -/
theorem raise_constructs_report_call_site (site : VW.CallSite) (args : VW.Args)
    (ex : VW.ExClass) (p : VW.Platform) (os : VW.StrerrorCall) :
    (∃ e, (VW.THROW site args).completion = .thrown e
        ∧ e.Filename = site.file ∧ e.LineNumber = site.line)
    ∧ (∃ e, (VW.THROW_EX site ex args).completion = .thrown e
        ∧ e.Filename = site.file ∧ e.LineNumber = site.line)
    ∧ (∃ e, (VW.THROWERRNO p site args os).completion = .thrown e
        ∧ e.Filename = site.file ∧ e.LineNumber = site.line)
    ∧ (∃ e, (VW_ASSERT site false args).completion = .thrown e
        ∧ e.Filename = site.file ∧ e.LineNumber = site.line)
    ∧ ∀ header : VW.CallSite, header ≠ site →
        (VW.THROW site args).raisedAt ≠ some header
        ∧ (VW.THROW_EX site ex args).raisedAt ≠ some header
        ∧ (VW.THROWERRNO p site args os).raisedAt ≠ some header
        ∧ (VW_ASSERT site false args).raisedAt ≠ some header := by
  have h1 : (VW.THROW site args).raisedAt = some site := rfl
  have h2 : (VW.THROW_EX site ex args).raisedAt = some site := by cases ex <;> rfl
  have h3 : (VW.THROWERRNO p site args os).raisedAt = some site := by cases p <;> rfl
  have h4 : (VW_ASSERT site false args).raisedAt = some site := rfl
  refine ⟨⟨_, rfl, rfl, rfl⟩, ?_, ?_, ⟨_, rfl, rfl, rfl⟩, ?_⟩
  · cases ex <;> exact ⟨_, rfl, rfl, rfl⟩
  · cases p <;> exact ⟨_, rfl, rfl, rfl⟩
  · intro header hne
    rw [h1, h2, h3, h4]
    have hs : some site ≠ some header := fun h => hne (Option.some.inj h).symm
    exact ⟨hs, hs, hs, hs⟩

/-- Witness of C6: uses at line 88 of "parse_args.cc" report that position and not
line 160 of the header. -/
theorem raise_constructs_report_call_site_witness :
    (VW.CallSite.mk "vw_exception.h" 160) ≠ ⟨"parse_args.cc", 88⟩
    ∧ (VW.THROW ⟨"parse_args.cc", 88⟩ ["bad option"]).raisedAt
        ≠ some ⟨"vw_exception.h", 160⟩
    ∧ (VW_ASSERT ⟨"parse_args.cc", 88⟩ false ["bad option"]).raisedAt
        ≠ some ⟨"vw_exception.h", 160⟩ :=
  have h := (raise_constructs_report_call_site ⟨"parse_args.cc", 88⟩ ["bad option"]
    .vw_unrecognised_option_exception .other ⟨0, ""⟩).2.2.2.2
    ⟨"vw_exception.h", 160⟩ (by decide)
  ⟨by decide, h.1, h.2.2.2⟩

/-! ## Handler matching -/

/-- C7: a fault of one of the three derived classes is matched by the handler for
its own class and by the handler for vw_exception, and by no handler for another
derived class; a fault of class vw_exception is matched by the vw_exception
handler and by no handler for a derived class; THROW_EX raises a fault of the class
it is given and THROW one of class vw_exception; and no derived class derives from
another derived class. -/
theorem handlers_distinguish_kinds (site : VW.CallSite) (args : VW.Args) :
    (∀ e : VW.Fault, e.cls ≠ .vw_exception →
        VW.catches e.cls e = true
        ∧ VW.catches .vw_exception e = true
        ∧ ∀ w : VW.ExClass, w ≠ .vw_exception → w ≠ e.cls → VW.catches w e = false)
    ∧ (∀ e : VW.Fault, e.cls = .vw_exception →
        VW.catches .vw_exception e = true
        ∧ ∀ w : VW.ExClass, w ≠ .vw_exception → VW.catches w e = false)
    ∧ (∀ v : VW.ExClass, ∃ e, (VW.THROW_EX site v args).completion = .thrown e ∧ e.cls = v)
    ∧ (∃ e, (VW.THROW site args).completion = .thrown e ∧ e.cls = .vw_exception)
    ∧ ∀ v w : VW.ExClass, v ≠ .vw_exception → w ≠ .vw_exception → v ≠ w →
        VW.isA v w = false := by
  refine ⟨?_, ?_, ?_, ⟨_, rfl, rfl⟩, ?_⟩
  · rintro ⟨c, b⟩ hc
    refine ⟨?_, ?_, ?_⟩
    · cases c <;> rfl
    · cases c <;> rfl
    · intro w hw hwc
      cases c <;> cases w <;> first | rfl | exact absurd rfl hw | exact absurd rfl hwc
  · rintro ⟨c, b⟩ hc
    cases hc
    refine ⟨rfl, ?_⟩
    intro w hw
    cases w <;> first | rfl | exact absurd rfl hw
  · intro v
    cases v <;> exact ⟨_, rfl, rfl⟩
  · intro v w hv hw hvw
    cases v <;> cases w <;> first | rfl | exact absurd rfl hv | exact absurd rfl hw | exact absurd rfl hvw

/-- Witness of C7: the invalid-value fault raised by THROW_EX is matched by its own
handler and the base handler and not by the disagreement handler. -/
theorem handlers_distinguish_kinds_witness :
    VW.catches .vw_argument_invalid_value_exception
        (VW.Fault.vw_argument_invalid_value_exception "a.cc" 3 "bad value") = true
    ∧ VW.catches .vw_exception
        (VW.Fault.vw_argument_invalid_value_exception "a.cc" 3 "bad value") = true
    ∧ VW.catches .vw_argument_disagreement_exception
        (VW.Fault.vw_argument_invalid_value_exception "a.cc" 3 "bad value") = false :=
  have h := (handlers_distinguish_kinds ⟨"a.cc", 3⟩ ["bad value"]).1
    (VW.Fault.vw_argument_invalid_value_exception "a.cc" 3 "bad value") (by decide)
  ⟨h.1, h.2.1, h.2.2 .vw_argument_disagreement_exception (by decide) (by decide)⟩

/-! ## VW_ASSERT -/

/-- C10: VW_ASSERT(condition, args) raises exactly when the condition is false:
with a true condition it raises nothing, formats no argument and completes
normally; with a false condition it does what THROW(args) does at that position,
raising an object of class vw_exception whose message is the concatenation of the
arguments. -/
theorem VW_ASSERT_raises_iff_condition_false (site : VW.CallSite) (args : VW.Args) :
    VW_ASSERT site true args = { formatted := [], completion := .normal }
    ∧ VW_ASSERT site false args = VW.THROW site args
    ∧ (∃ e : VW.Fault, (VW_ASSERT site false args).completion = .thrown e
        ∧ e.cls = .vw_exception
        ∧ e.what = VW.concatenation args
        ∧ e.Filename = site.file
        ∧ e.LineNumber = site.line)
    ∧ ∀ condition : Bool,
        (∃ e, (VW_ASSERT site condition args).completion = .thrown e) ↔ condition = false := by
  refine ⟨rfl, rfl, ⟨_, rfl, rfl, VW.stringstream.init_shl_str args, rfl, rfl⟩, ?_⟩
  intro condition
  cases condition
  · exact ⟨fun _ => rfl, fun _ => ⟨_, rfl⟩⟩
  · constructor
    · rintro ⟨e, he⟩
      simp [VW_ASSERT] at he
    · intro h
      exact absurd h (by decide)

/-! ## Objects in memory -/

/-- C8, as the claim states it, fails for the target of operator=: a fault
constructed from ("a.cc", 1, "first") that is assigned from a fault constructed
from ("b.cc", 2, "second") takes part in the assignment and afterwards reads
("b.cc", 2, "second"), not the values it was constructed with. -/
theorem assignment_target_reads_source_fields :
    ((VW.construct_at VW.Memory.empty 0 .vw_exception "a.cc" 1 "first").bind fun m1 =>
      (VW.construct_at m1 1 .vw_exception "b.cc" 2 "second").bind fun m2 =>
        VW.fieldsAt m2 0) = some ("a.cc", 1, "first")
    ∧ VW.Op.involves 0 (.assign .vw_exception 0 1) = true
    ∧ ((VW.construct_at VW.Memory.empty 0 .vw_exception "a.cc" 1 "first").bind fun m1 =>
        (VW.construct_at m1 1 .vw_exception "b.cc" 2 "second").bind fun m2 =>
          (VW.step m2 (.assign .vw_exception 0 1)).bind fun m3 =>
            VW.fieldsAt m3 0) = some ("b.cc", 2, "second")
    ∧ (some ("b.cc", 2, "second") : Option (String × Int × String))
        ≠ some ("a.cc", 1, "first") := by
  decide

/-- C8, amended: a fault constructed from (file, line, message) still reads that
file, line and message after every sequence of operations of the public interface
in which it is not the target of operator= from another fault and its life does
not end, so what(), Filename(), LineNumber(), being copied from, being the source
of an assignment and self-assignment leave its fields as constructed; as the
target of operator= from another fault it takes the file, line and message of
the source. -/
theorem fields_fixed_unless_assignment_target (m0 m1 m2 : VW.Memory) (x : VW.Addr)
    (ex : VW.ExClass) (file : String) (lineNumber : Int) (message : String)
    (ops : List VW.Op)
    (hc : VW.construct_at m0 x ex file lineNumber message = some m1)
    (hrun : VW.run m1 ops = some m2)
    (hnw : ∀ op ∈ ops, VW.Op.writes x op = false) :
    VW.fieldsAt m2 x = some (file, lineNumber, message)
    ∧ (∀ (cls : VW.ExClass) (y c : VW.Addr),
        VW.Op.writes x (.what y) = false
        ∧ VW.Op.writes x (.Filename y) = false
        ∧ VW.Op.writes x (.LineNumber y) = false
        ∧ VW.Op.writes x (.copy cls c y) = false
        ∧ VW.Op.writes x (.assign cls x x) = false
        ∧ (c ≠ x → VW.Op.writes x (.assign cls c y) = false))
    ∧ ∀ (cls : VW.ExClass) (s : VW.Addr) (o : VW.Fault),
        s ≠ x → m2 s = some o → VW.isA ex cls = true → VW.isA o.cls cls = true →
        ∃ m3, VW.step m2 (.assign cls x s) = some m3
          ∧ VW.fieldsAt m3 x = some (o.Filename, o.LineNumber, o.what) := by
  have hm1 : m1 x = some (VW.construct ex file lineNumber message) := by
    cases hx : m0 x with
    | some _ => simp [VW.construct_at, hx] at hc
    | none =>
      simp [VW.construct_at, hx] at hc
      rw [← hc, Function.update_same]
  have hm2 := VW.run_frame ops m1 m2 x _ hrun hnw hm1
  refine ⟨?_, ?_, ?_⟩
  · rw [VW.fieldsAt, hm2]
    cases ex <;> rfl
  · intro cls y c
    refine ⟨rfl, rfl, rfl, rfl, ?_, ?_⟩
    · simp [VW.Op.writes]
    · intro hcx
      simp [VW.Op.writes, hcx]
  · intro cls s o _ hso hex hocls
    have hcls : (VW.construct ex file lineNumber message).cls = ex := by cases ex <;> rfl
    refine ⟨_, VW.assign_eq m2 cls x s _ o hm2 hso (by rw [hcls]; exact hex) hocls, ?_⟩
    rw [VW.fieldsAt, Function.update_same]
    rfl

/-- Witness of the amended C8: the scenario fault at address 0, after being read,
copied from, assigned from and assigned to itself, reads the values it was
constructed with. -/
theorem fields_fixed_unless_assignment_target_witness :
    (VW.construct_at VW.Memory.empty 0 .vw_argument_disagreement_exception "config.cc" 42
        "conflicting options A and B") = some VW.scenarioMemory
    ∧ (VW.run VW.scenarioMemory VW.readingOps).isSome = true
    ∧ (∀ op ∈ VW.readingOps, VW.Op.writes 0 op = false)
    ∧ ((VW.run VW.scenarioMemory VW.readingOps).bind fun m => VW.fieldsAt m 0)
        = some ("config.cc", 42, "conflicting options A and B") :=
  have h : (VW.run VW.scenarioMemory VW.readingOps).isSome = true := by decide
  have e : VW.run VW.scenarioMemory VW.readingOps
      = some ((VW.run VW.scenarioMemory VW.readingOps).get h) := (Option.some_get h).symm
  ⟨rfl, h, by decide,
    (congrArg (fun o : Option VW.Memory => o.bind fun m => VW.fieldsAt m 0) e).trans
      (fields_fixed_unless_assignment_target VW.Memory.empty VW.scenarioMemory
        ((VW.run VW.scenarioMemory VW.readingOps).get h) 0
        .vw_argument_disagreement_exception "config.cc" 42 "conflicting options A and B"
        VW.readingOps rfl e (by decide)).1⟩

/-- C9: for a live fault s of any class and free storage c, the copy built at c has
the file, line and message of s and leaves s as it is; an assignment a = s gives a
the file, line and message of s and leaves s as it is; assigning s to itself,
through the guarded branch of a derived class or through the base operator, leaves
the memory unchanged; and after any later operations that assign to s or end the
life of s, or more generally that do not write to c, the copy at c still reads the
same file, line and message. -/
theorem copy_and_assign_yield_independent_value (m : VW.Memory) (s c : VW.Addr)
    (f : VW.Fault) (cls : VW.ExClass)
    (hs : m s = some f) (hfree : m c = none) (hty : VW.isA f.cls cls = true) :
    (∃ m1, VW.copy_construct m cls c s = some m1
      ∧ VW.fieldsAt m1 c = some (f.Filename, f.LineNumber, f.what)
      ∧ VW.fieldsAt m1 c = VW.fieldsAt m s
      ∧ m1 s = some f
      ∧ (∀ (ops : List VW.Op) (m2 : VW.Memory),
          VW.run m1 ops = some m2 → (∀ op ∈ ops, VW.Op.writes c op = false) →
          VW.fieldsAt m2 c = some (f.Filename, f.LineNumber, f.what))
      ∧ (∀ (cls2 : VW.ExClass) (t : VW.Addr) (m2 : VW.Memory),
          VW.assign m1 cls2 s t = some m2 → VW.fieldsAt m2 c = VW.fieldsAt m1 c)
      ∧ (∀ m2 : VW.Memory, VW.destroy m1 s = some m2 → VW.fieldsAt m2 c = VW.fieldsAt m1 c))
    ∧ (∀ (cls2 : VW.ExClass) (a : VW.Addr) (t : VW.Fault),
        m a = some t → VW.isA t.cls cls2 = true → VW.isA f.cls cls2 = true →
        ∃ m2, VW.assign m cls2 a s = some m2
          ∧ VW.fieldsAt m2 a = some (f.Filename, f.LineNumber, f.what)
          ∧ m2 s = some f)
    ∧ (∀ cls2 : VW.ExClass, VW.isA f.cls cls2 = true → VW.assign m cls2 s s = some m)
    ∧ (∀ (cls2 : VW.ExClass) (t : VW.Addr),
        VW.Op.writes c (.assign cls2 s t) = false ∧ VW.Op.writes c (.destroy s) = false) := by
  have hcs : c ≠ s := by
    intro h
    rw [h, hs] at hfree
    cases hfree
  have hcopy : VW.copy_construct m cls c s
      = some (Function.update m c (some { cls := cls, base := f.base })) := by
    simp only [VW.copy_construct, hfree, hs, hty, if_true]
    rfl
  have hwa : ∀ (cls2 : VW.ExClass) (t : VW.Addr),
      VW.Op.writes c (.assign cls2 s t) = false := by
    intro cls2 t
    simp [VW.Op.writes, Ne.symm hcs]
  have hwd : VW.Op.writes c (.destroy s) = false := by
    simp [VW.Op.writes, Ne.symm hcs]
  have hm1c : (Function.update m c (some { cls := cls, base := f.base })) c
      = some ({ cls := cls, base := f.base } : VW.Fault) := Function.update_same _ _ _
  refine ⟨⟨_, hcopy, ?_, ?_, ?_, ?_, ?_, ?_⟩, ?_, ?_, ?_⟩
  · rw [VW.fieldsAt, hm1c]
    rfl
  · rw [VW.fieldsAt, VW.fieldsAt, hm1c, hs]
    rfl
  · rw [Function.update_noteq (Ne.symm hcs), hs]
  · intro ops m2 hrun hnw
    rw [VW.fieldsAt, VW.run_frame ops _ m2 c _ hrun hnw hm1c]
    rfl
  · intro cls2 t m2 hassign
    have hstep : VW.step (Function.update m c (some { cls := cls, base := f.base }))
        (.assign cls2 s t) = some m2 := hassign
    rw [VW.fieldsAt, VW.fieldsAt, VW.step_frame _ m2 _ c _ hstep (hwa cls2 t) hm1c, hm1c]
  · intro m2 hdestroy
    have hstep : VW.step (Function.update m c (some { cls := cls, base := f.base }))
        (.destroy s) = some m2 := hdestroy
    rw [VW.fieldsAt, VW.fieldsAt, VW.step_frame _ m2 _ c _ hstep hwd hm1c, hm1c]
  · intro cls2 a t hta htcls hfcls
    refine ⟨_, VW.assign_eq m cls2 a s t f hta hs htcls hfcls, ?_, ?_⟩
    · rw [VW.fieldsAt, Function.update_same]
      rfl
    · by_cases has : s = a
      · subst has
        rw [hs] at hta
        cases hta
        rw [Function.update_same]
      · rw [Function.update_noteq has, hs]
  · intro cls2 hfcls
    rw [VW.assign_eq m cls2 s s f f hs hs hfcls hfcls, VW.update_self_eq m s f hs]
  · exact fun cls2 t => ⟨hwa cls2 t, hwd⟩

/-- Witness of C9: the scenario fault at address 0 copied to the free address 1. -/
theorem copy_and_assign_yield_independent_value_witness :
    VW.scenarioMemory 0
      = some (VW.construct .vw_argument_disagreement_exception "config.cc" 42
          "conflicting options A and B")
    ∧ VW.scenarioMemory 1 = none
    ∧ VW.isA .vw_argument_disagreement_exception .vw_exception = true
    ∧ (∃ m1, VW.copy_construct VW.scenarioMemory .vw_exception 1 0 = some m1
        ∧ VW.fieldsAt m1 1 = some ("config.cc", 42, "conflicting options A and B")
        ∧ m1 0 = some (VW.construct .vw_argument_disagreement_exception "config.cc" 42
            "conflicting options A and B"))
    ∧ VW.assign VW.scenarioMemory .vw_argument_disagreement_exception 0 0
        = some VW.scenarioMemory :=
  have h := copy_and_assign_yield_independent_value VW.scenarioMemory 0 1
    (VW.construct .vw_argument_disagreement_exception "config.cc" 42
      "conflicting options A and B") .vw_exception rfl rfl rfl
  ⟨rfl, rfl, rfl,
    h.1.elim fun m1 h1 => ⟨m1, h1.1, h1.2.1, h1.2.2.2.1⟩,
    h.2.2.1 .vw_argument_disagreement_exception rfl⟩
